import Mathlib

/-!
Shallow embedding of the CBT chatbot frontend (TypeScript/React) state
containers and HTTP client, for checking the natural-language specification
against the code.

Sources embedded:
* `src/lib/chat-context.tsx` (primary copy): the chat/session state container
  with its check-in, CBT and survey actions.  Each React action is modelled
  as a pure function from the pre-call state (the render snapshot) and the
  backend's responses to the post-call state together with the list of
  backend requests the action issued.  Reads of plain closure variables use
  the snapshot (the function argument `s`), exactly as a React closure
  captures the render-time values; functional `set` calls are threaded
  through `let`-bound intermediate states.
* `src/lib/api.ts`: the axios response interceptor (401 refresh-and-retry)
  and `authAPI.logout`.
* `src/lib/auth-context.tsx`: both copies of `logout`, modelled as event
  traces.
-/

namespace CbtFrontend

/-- Message sender tag: `'user' | 'bot'` in `chat-context.tsx`. -/
inductive Sender where
  | user : Sender
  | bot : Sender
deriving DecidableEq, Repr

/-- A chat `Message` (`chat-context.tsx`): id, content, sender, timestamp.
`Date` timestamps are modelled as `Nat` milliseconds (`Date.now()`). -/
structure Message where
  id : String
  content : String
  sender : Sender
  timestamp : Nat
deriving DecidableEq, Repr

/-- A `NextStep` quick-reply suggestion (`chat-context.tsx`). -/
structure NextStep where
  id : String
  label : String
  action : String
deriving DecidableEq, Repr

/-- A `SurveyAnswer` (`chat-context.tsx`): score plus display text.  The TS
type admits `number | string` scores; the numeric case is modelled (the
string case is normalized with `parseInt` only in the duplicate copy). -/
structure SurveyAnswer where
  score : Int
  text : String
deriving DecidableEq, Repr

/-- A `SurveyQuestionnaireOption` (`chat-context.tsx`). -/
structure SurveyQuestionnaireOption where
  id : String
  name : String
  icon : String
  description : Option String := none
deriving DecidableEq, Repr

/-- A `SurveyResult` (`chat-context.tsx`). -/
structure SurveyResult where
  questionnaire_id : String
  questionnaire_name : String
  score : Int
  severity : String
  condition : String
  max_score : Int
  interpretation : Option String := none
deriving DecidableEq, Repr

/-- The JSON body of a backend chat response.  Fields that the code tests
with `!== undefined` or truthiness before using are modelled as `Option`
(`none` = absent); `next_steps` is a list, `[]` standing for absent or
empty (the code guards with `next_steps && next_steps.length > 0`). -/
structure ChatResponse where
  response : String
  session_id : String
  next_steps : List String := []
  questionnaire_options : Option (List SurveyQuestionnaireOption) := none
  question_index : Option Int := none
  total_questions : Option Int := none
  possible_answers : Option (List SurveyAnswer) := none
  survey_results : Option SurveyResult := none
deriving DecidableEq, Repr

/-- An axios error as the containers see it: `error.response?.status`
(`none` when there was no HTTP response). -/
abbrev ApiError : Type := Option Nat

/-- The JSON body a chat call posts to `/chat/check-in` or `/chat/cbt`
(`api.ts`, `chatAPI`): `{ message: message ?? '', session_id, mode }`. -/
structure ChatRequest where
  message : String
  session_id : Option String
  mode : String
deriving DecidableEq, Repr

namespace ChatAPI

/-- `chatAPI.sendCheckInMessage(message, sessionId, mode = 'non-clinical')`
(`api.ts` lines 151-158): the request body it posts to `/chat/check-in`. -/
def sendCheckInMessage (message : Option String) (sessionId : Option String)
    (mode : String := "non-clinical") : ChatRequest :=
  { message := message.getD "", session_id := sessionId, mode := mode }

/-- `chatAPI.sendCBTMessage(message, sessionId)` (`api.ts` lines 160-167):
the request body it posts to `/chat/cbt` with mode `'cbt'`. -/
def sendCBTMessage (message : Option String) (sessionId : Option String) :
    ChatRequest :=
  { message := message.getD "", session_id := sessionId, mode := "cbt" }

/-- `chatAPI.startSurvey(sessionId)` (`api.ts`): a check-in call with no
message in mode `'survey'`. -/
def startSurvey (sessionId : Option String) : ChatRequest :=
  sendCheckInMessage none sessionId "survey"

/-- `chatAPI.selectQuestionnaire(questionnaireId, sessionId)` (`api.ts`). -/
def selectQuestionnaire (questionnaireId : String) (sessionId : Option String) :
    ChatRequest :=
  sendCheckInMessage (some (s!"select_questionnaire:{questionnaireId}")) sessionId "survey"

/-- `chatAPI.answerSurveyQuestion(questionnaireId, questionIndex, answerScore,
sessionId)` (`api.ts`). -/
def answerSurveyQuestion (questionnaireId : String) (questionIndex : Int)
    (answerScore : Int) (sessionId : Option String) : ChatRequest :=
  sendCheckInMessage (some (s!"answer:{questionnaireId}|{questionIndex}|{answerScore}"))
    sessionId "survey"

end ChatAPI

/-- The chat container's React state (`chat-context.tsx`, `ChatProvider`). -/
structure ChatState where
  checkInSessionId : Option String := none
  checkInMessages : List Message := []
  checkInNextSteps : List NextStep := []
  checkInLoading : Bool := false
  cbtSessionId : Option String := none
  cbtMessages : List Message := []
  cbtNextSteps : List NextStep := []
  cbtLoading : Bool := false
  surveyMode : Bool := false
  surveyQuestionnaireOptions : List SurveyQuestionnaireOption := []
  currentSurveyQuestion : Option String := none
  currentQuestionIndex : Option Int := none
  totalQuestions : Option Int := none
  possibleAnswers : List SurveyAnswer := []
  currentQuestionnaireId : Option String := none
  surveyResults : Option SurveyResult := none
deriving DecidableEq, Repr

/-- The initial provider state: every `useState` initializer. -/
def ChatState.init : ChatState := {}

/-- `response.next_steps.map((step, index) => ({ id: step-index, label: step,
action: Start step }))` as written in every action of `chat-context.tsx`. -/
def mkNextSteps (steps : List String) : List NextStep :=
  steps.enum.map fun p => { id := s!"step-{p.1}", label := p.2, action := s!"Start {p.2}" }

/-- The whitespace class of JavaScript `String.prototype.trim` restricted
to its ASCII members (space, tab, line feed, carriage return, vertical tab,
form feed). -/
def isJsWhitespace (c : Char) : Bool :=
  c = ' ' || c = '\t' || c = '\n' || c = '\r' || c = '\x0b' || c = '\x0c'

/-- JavaScript `message.trim()`: strip leading and trailing whitespace. -/
def jsTrim (s : String) : String :=
  ⟨((s.data.dropWhile isJsWhitespace).reverse.dropWhile isJsWhitespace).reverse⟩

/-- The welcome bot message built by `startNewCheckIn` / `startNewCBT`. -/
def welcomeMsg (content : String) (now : Nat) : Message :=
  { id := "welcome", content := content, sender := Sender.bot, timestamp := now }

/-- The bot reply message built by the send / next-step handlers. -/
def botMsg (content : String) (now : Nat) : Message :=
  { id := s!"bot-{now}", content := content, sender := Sender.bot, timestamp := now }

/-- The locally appended user message built by the send handlers. -/
def userMsg (content : String) (now : Nat) : Message :=
  { id := s!"user-{now}", content := content, sender := Sender.user, timestamp := now }

/-- The resume bot message built by `resumeCheckIn` / `resumeCBT`. -/
def resumeMsg (content : String) (now : Nat) : Message :=
  { id := s!"resume-{now}", content := content, sender := Sender.bot, timestamp := now }

/-- `if (response.next_steps && response.next_steps.length > 0) setXNextSteps(...)`:
replace the suggestions only when the response carries a non-empty list. -/
def applySteps (r : ChatResponse) (old : List NextStep) : List NextStep :=
  if 0 < r.next_steps.length then mkNextSteps r.next_steps else old

/-! ### Chat actions, primary copy (`src/lib/chat-context.tsx`)

Each action takes the auth container's `user` (`Option Nat`, the user id),
the backend results its calls will receive, a `now` timestamp, and the
pre-call state `s`; it returns the post-call state and the list of request
bodies it posted, in order.  A guard clause that returns early yields
`(s, [])`: no request, no state change. -/

/-- `startNewCheckIn` (`chat-context.tsx` lines 196-229). -/
def startNewCheckIn (user : Option Nat) (backend : Except ApiError ChatResponse)
    (now : Nat) (s : ChatState) : ChatState × List ChatRequest :=
  match user with
  | none => (s, [])
  | some _ =>
    let s1 := { s with
      checkInLoading := true, checkInSessionId := none,
      checkInMessages := [], checkInNextSteps := [] }
    let req := ChatAPI.sendCheckInMessage none none
    match backend with
    | .error _ => ({ s1 with checkInLoading := false }, [req])
    | .ok r =>
      let s2 := { s1 with
        checkInMessages := [welcomeMsg r.response now],
        checkInSessionId := some r.session_id,
        checkInNextSteps := applySteps r s1.checkInNextSteps }
      ({ s2 with checkInLoading := false }, [req])

/-- `resumeCheckIn` (`chat-context.tsx` lines 232-267).  `resumeB` is the
backend's answer to the resume request; `startB` the answer to the
`startNewCheckIn` request issued from the catch block. -/
def resumeCheckIn (user : Option Nat) (resumeB startB : Except ApiError ChatResponse)
    (now : Nat) (s : ChatState) : ChatState × List ChatRequest :=
  match user, s.checkInSessionId with
  | none, _ => (s, [])
  | some _, none => (s, [])
  | some u, some sid =>
    let s1 := { s with checkInLoading := true }
    let req := ChatAPI.sendCheckInMessage none (some sid)
    match resumeB with
    | .ok r =>
      let msgs := if 0 < s1.checkInMessages.length
                  then s1.checkInMessages ++ [resumeMsg r.response now]
                  else [resumeMsg r.response now]
      let s2 := { s1 with
        checkInMessages := msgs,
        checkInNextSteps := applySteps r s1.checkInNextSteps }
      ({ s2 with checkInLoading := false }, [req])
    | .error _ =>
      let s2 := { s1 with checkInSessionId := none }
      let p := startNewCheckIn (some u) startB now s2
      ({ p.1 with checkInLoading := false }, req :: p.2)

/-- `sendCheckInMessage` (`chat-context.tsx` lines 270-308).  Note the
guard `if (!user || !message.trim() || checkInLoading) return;` and that the
response's `session_id` is never stored. -/
def sendCheckInMessage (user : Option Nat) (message : String)
    (backend : Except ApiError ChatResponse) (now : Nat) (s : ChatState) :
    ChatState × List ChatRequest :=
  if user.isNone || jsTrim message == "" || s.checkInLoading then (s, []) else
  let s1 := { s with
    checkInMessages := s.checkInMessages ++ [userMsg message now],
    checkInLoading := true, checkInNextSteps := [] }
  let req := ChatAPI.sendCheckInMessage (some message) s.checkInSessionId
  match backend with
  | .error _ => ({ s1 with checkInLoading := false }, [req])
  | .ok r =>
    let s2 := { s1 with
      checkInMessages := s1.checkInMessages ++ [botMsg r.response now],
      checkInNextSteps := applySteps r s1.checkInNextSteps }
    ({ s2 with checkInLoading := false }, [req])

/-- `handleCheckInNextStep` (`chat-context.tsx` lines 311-341). -/
def handleCheckInNextStep (user : Option Nat) (step : NextStep)
    (backend : Except ApiError ChatResponse) (now : Nat) (s : ChatState) :
    ChatState × List ChatRequest :=
  if user.isNone || s.checkInLoading then (s, []) else
  let s1 := { s with checkInLoading := true, checkInNextSteps := [] }
  let req := ChatAPI.sendCheckInMessage (some step.action) s.checkInSessionId
  match backend with
  | .error _ => ({ s1 with checkInLoading := false }, [req])
  | .ok r =>
    let s2 := { s1 with
      checkInMessages := s1.checkInMessages ++ [botMsg r.response now],
      checkInNextSteps := applySteps r s1.checkInNextSteps }
    ({ s2 with checkInLoading := false }, [req])

/-- `startNewCBT` (`chat-context.tsx` lines 344-378). -/
def startNewCBT (user : Option Nat) (backend : Except ApiError ChatResponse)
    (now : Nat) (s : ChatState) : ChatState × List ChatRequest :=
  match user with
  | none => (s, [])
  | some _ =>
    let s1 := { s with
      cbtLoading := true, cbtSessionId := none,
      cbtMessages := [], cbtNextSteps := [] }
    let req := ChatAPI.sendCBTMessage none none
    match backend with
    | .error _ => ({ s1 with cbtLoading := false }, [req])
    | .ok r =>
      let s2 := { s1 with
        cbtMessages := [welcomeMsg r.response now],
        cbtSessionId := some r.session_id,
        cbtNextSteps := applySteps r s1.cbtNextSteps }
      ({ s2 with cbtLoading := false }, [req])

/-- `resumeCBT` (`chat-context.tsx` lines 381-417). -/
def resumeCBT (user : Option Nat) (resumeB startB : Except ApiError ChatResponse)
    (now : Nat) (s : ChatState) : ChatState × List ChatRequest :=
  match user, s.cbtSessionId with
  | none, _ => (s, [])
  | some _, none => (s, [])
  | some u, some sid =>
    let s1 := { s with cbtLoading := true }
    let req := ChatAPI.sendCBTMessage none (some sid)
    match resumeB with
    | .ok r =>
      let msgs := if 0 < s1.cbtMessages.length
                  then s1.cbtMessages ++ [resumeMsg r.response now]
                  else [resumeMsg r.response now]
      let s2 := { s1 with
        cbtMessages := msgs,
        cbtNextSteps := applySteps r s1.cbtNextSteps }
      ({ s2 with cbtLoading := false }, [req])
    | .error _ =>
      let s2 := { s1 with cbtSessionId := none }
      let p := startNewCBT (some u) startB now s2
      ({ p.1 with cbtLoading := false }, req :: p.2)

/-- `sendCBTMessage` (`chat-context.tsx` lines 420-489).  When the snapshot
`cbtSessionId` is null the handler awaits `startNewCBT` (backend result
`bNew`) and then posts the message with the closure-captured — still null —
session id (backend result `bSend`); the catch block starts one more new
session (backend result `bRetry`) when the send failed with HTTP 500. -/
def sendCBTMessage (user : Option Nat) (message : String)
    (bNew bSend bRetry : Except ApiError ChatResponse) (now : Nat) (s : ChatState) :
    ChatState × List ChatRequest :=
  if user.isNone || jsTrim message == "" || s.cbtLoading then (s, []) else
  let s1 := { s with
    cbtMessages := s.cbtMessages ++ [userMsg message now],
    cbtLoading := true, cbtNextSteps := [] }
  match s.cbtSessionId with
  | none =>
    let p := startNewCBT user bNew now s1
    let req2 := ChatAPI.sendCBTMessage (some message) s.cbtSessionId
    match bSend with
    | .ok r =>
      let s2 := { p.1 with
        cbtMessages := p.1.cbtMessages ++ [botMsg r.response now],
        cbtNextSteps := applySteps r p.1.cbtNextSteps }
      ({ s2 with cbtLoading := false }, p.2 ++ [req2])
    | .error e =>
      if e = some 500 then
        let q := startNewCBT user bRetry now p.1
        ({ q.1 with cbtLoading := false }, p.2 ++ [req2] ++ q.2)
      else ({ p.1 with cbtLoading := false }, p.2 ++ [req2])
  | some sid =>
    let req := ChatAPI.sendCBTMessage (some message) (some sid)
    match bSend with
    | .ok r =>
      let s2 := { s1 with
        cbtMessages := s1.cbtMessages ++ [botMsg r.response now],
        cbtSessionId := some r.session_id,
        cbtNextSteps := applySteps r s1.cbtNextSteps }
      ({ s2 with cbtLoading := false }, [req])
    | .error e =>
      if e = some 500 then
        let q := startNewCBT user bRetry now s1
        ({ q.1 with cbtLoading := false }, req :: q.2)
      else ({ s1 with cbtLoading := false }, [req])

/-- `handleCBTNextStep` (`chat-context.tsx` lines 492-522). -/
def handleCBTNextStep (user : Option Nat) (step : NextStep)
    (backend : Except ApiError ChatResponse) (now : Nat) (s : ChatState) :
    ChatState × List ChatRequest :=
  if user.isNone || s.cbtLoading then (s, []) else
  let s1 := { s with cbtLoading := true, cbtNextSteps := [] }
  let req := ChatAPI.sendCBTMessage (some step.action) s.cbtSessionId
  match backend with
  | .error _ => ({ s1 with cbtLoading := false }, [req])
  | .ok r =>
    let s2 := { s1 with
      cbtMessages := s1.cbtMessages ++ [botMsg r.response now],
      cbtNextSteps := applySteps r s1.cbtNextSteps }
    ({ s2 with cbtLoading := false }, [req])

/-- `startSurvey` (`chat-context.tsx` lines 525-561).  The only guard is
`if (!user) return;` — the loading flag is not consulted. -/
def startSurvey (user : Option Nat) (backend : Except ApiError ChatResponse)
    (s : ChatState) : ChatState × List ChatRequest :=
  match user with
  | none => (s, [])
  | some _ =>
    let s1 := { s with surveyMode := true, checkInLoading := true }
    let req := ChatAPI.startSurvey s.checkInSessionId
    match backend with
    | .error _ => ({ s1 with surveyMode := false, checkInLoading := false }, [req])
    | .ok r =>
      let s2 := { s1 with currentSurveyQuestion := some r.response }
      let s2 := match r.questionnaire_options with
                | some o => { s2 with surveyQuestionnaireOptions := o }
                | none => s2
      let s2 := match r.question_index with
                | some i => { s2 with currentQuestionIndex := some i }
                | none => s2
      let s2 := match r.total_questions with
                | some t => { s2 with totalQuestions := some t }
                | none => s2
      let s2 := match r.possible_answers with
                | some a => { s2 with possibleAnswers := a }
                | none => s2
      let s2 := match r.survey_results with
                | some sr => { s2 with surveyResults := some sr }
                | none => s2
      ({ s2 with checkInLoading := false }, [req])

/-- `selectQuestionnaire` (`chat-context.tsx` lines 564-591).  Guarded by
`if (!user || !surveyMode) return;` — the loading flag is not consulted. -/
def selectQuestionnaire (user : Option Nat) (questionnaireId : String)
    (backend : Except ApiError ChatResponse) (s : ChatState) :
    ChatState × List ChatRequest :=
  if user.isNone || !s.surveyMode then (s, []) else
  let s1 := { s with
    checkInLoading := true,
    currentQuestionnaireId := some questionnaireId }
  let req := ChatAPI.selectQuestionnaire questionnaireId s.checkInSessionId
  match backend with
  | .error _ => ({ s1 with checkInLoading := false }, [req])
  | .ok r =>
    let s2 := { s1 with currentSurveyQuestion := some r.response }
    let s2 := match r.question_index with
              | some i => { s2 with currentQuestionIndex := some i }
              | none => s2
    let s2 := match r.total_questions with
              | some t => { s2 with totalQuestions := some t }
              | none => s2
    let s2 := match r.possible_answers with
              | some a => { s2 with possibleAnswers := a }
              | none => s2
    ({ s2 with checkInLoading := false }, [req])

/-- `answerSurveyQuestion` (`chat-context.tsx` lines 594-628).  Guarded by
`if (!user || !surveyMode || !currentQuestionnaireId ||
currentQuestionIndex === null) return;` — the loading flag is not
consulted.  The `number | string` score input is modelled in its numeric
case (the string case goes through `parseInt` to the same request shape). -/
def answerSurveyQuestion (user : Option Nat) (answerScore : Int)
    (backend : Except ApiError ChatResponse) (s : ChatState) :
    ChatState × List ChatRequest :=
  match user, s.surveyMode, s.currentQuestionnaireId, s.currentQuestionIndex with
  | some _, true, some qid, some idx =>
    let s1 := { s with checkInLoading := true }
    let req := ChatAPI.answerSurveyQuestion qid idx answerScore s.checkInSessionId
    match backend with
    | .error _ => ({ s1 with checkInLoading := false }, [req])
    | .ok r =>
      let s2 := { s1 with currentSurveyQuestion := some r.response }
      let s2 := match r.question_index with
                | some i => { s2 with currentQuestionIndex := some i }
                | none => s2
      let s2 := match r.possible_answers with
                | some a => { s2 with possibleAnswers := a }
                | none => s2
      let s2 := match r.survey_results with
                | some sr => { s2 with surveyResults := some sr }
                | none => s2
      ({ s2 with checkInLoading := false }, [req])
  | _, _, _, _ => (s, [])

/-- `closeSurvey` (`chat-context.tsx` lines 630-638).  It resets the survey
mode flag, question text, question index, total count, possible answers,
questionnaire id and results — and nothing else: in particular
`surveyQuestionnaireOptions` is left untouched. -/
def closeSurvey (s : ChatState) : ChatState :=
  { s with
    surveyMode := false, currentSurveyQuestion := none,
    currentQuestionIndex := none, totalQuestions := none,
    possibleAnswers := [], currentQuestionnaireId := none,
    surveyResults := none }

/-! ### HTTP client wrapper (`src/lib/api.ts`)

The axios response interceptor (lines 54-98) is modelled as a step
function on the token store plus a runner that replays the original
request at most once.  The refresh exchange's own outcome is an
environment input (`Except Unit (String × String)`, the new token pair on
success). -/

/-- The two tokens kept in `localStorage` (`access_token`, `refresh_token`). -/
structure TokenStore where
  access_token : Option String
  refresh_token : Option String
deriving DecidableEq, Repr

/-- How one delivery of a request ends: fulfilled, or rejected with
`error.response?.status` (`none` when no response arrived). -/
inductive HttpOutcome where
  | ok : HttpOutcome
  | err : Option Nat → HttpOutcome
deriving DecidableEq, Repr

/-- What the response interceptor decides for one delivered outcome. -/
inductive InterceptDecision where
  | deliver : InterceptDecision
  | reject : InterceptDecision
  | retryWith : String → InterceptDecision
deriving DecidableEq, Repr

/-- Result of one pass through the response interceptor. -/
structure StepResult where
  store : TokenStore
  redirected : Bool
  refreshCalls : Nat
  decision : InterceptDecision
deriving DecidableEq, Repr

/-- One pass through the response interceptor (`api.ts` lines 54-98) for a
request whose `_retry` flag is `retried`.  On a 401 with `_retry` unset it
marks the request retried and refreshes: with no stored refresh token it
redirects to `/login` and rejects (the store is left as it is); if the
exchange fails it removes both tokens, redirects and rejects; if it
succeeds it persists the new pair and replays the request.  Every other
error — including a 401 on an already-retried request — is rejected
unchanged. -/
def interceptStep (retried : Bool) (store : TokenStore) (outcome : HttpOutcome)
    (refreshResult : Except Unit (String × String)) : StepResult :=
  match outcome with
  | .ok => ⟨store, false, 0, .deliver⟩
  | .err status =>
    if status = some 401 && !retried then
      match store.refresh_token with
      | none => ⟨store, true, 0, .reject⟩
      | some _ =>
        match refreshResult with
        | .ok (a, r) => ⟨⟨some a, some r⟩, false, 1, .retryWith a⟩
        | .error _ => ⟨⟨none, none⟩, true, 1, .reject⟩
    else ⟨store, false, 0, .reject⟩

/-- What the caller of an authenticated request observes in the end. -/
structure RunResult where
  store : TokenStore
  redirected : Bool
  delivered : Bool
  refreshCalls : Nat
  originalSends : Nat
deriving DecidableEq, Repr

/-- An authenticated request end to end: the first delivery gets outcome
`first`; if the interceptor asks for a retry, the replayed request (now
carrying `_retry = true`) gets outcome `second` and runs through the
interceptor once more. -/
def runAuthedRequest (store : TokenStore) (first : HttpOutcome)
    (refreshResult : Except Unit (String × String)) (second : HttpOutcome) :
    RunResult :=
  let st1 := interceptStep false store first refreshResult
  match st1.decision with
  | .deliver => ⟨st1.store, st1.redirected, true, st1.refreshCalls, 1⟩
  | .reject => ⟨st1.store, st1.redirected, false, st1.refreshCalls, 1⟩
  | .retryWith _ =>
    let st2 := interceptStep true st1.store second refreshResult
    match st2.decision with
    | .deliver =>
      ⟨st2.store, st1.redirected || st2.redirected, true,
       st1.refreshCalls + st2.refreshCalls, 2⟩
    | _ =>
      ⟨st2.store, st1.redirected || st2.redirected, false,
       st1.refreshCalls + st2.refreshCalls, 2⟩

/-! ### Logout (`src/lib/api.ts` lines 128-138, `src/lib/auth-context.tsx`)

Both copies of the auth container's `logout` are modelled as event traces,
so statements about ordering ("callback before backend call") and about
unconditional effects ("always clears …") are statements about the trace. -/

/-- Observable effects of a logout run, in program order. -/
inductive LogoutEvent where
  | chatCleared : LogoutEvent
  | backendLogoutRequested : LogoutEvent
  | tokensCleared : LogoutEvent
  | userCleared : LogoutEvent
  | routedHome : LogoutEvent
deriving DecidableEq, Repr

/-- `authAPI.logout` (`api.ts` lines 128-138): posts `/auth/logout`, and in
a `finally` always removes both tokens; a backend failure is re-thrown
after the `finally`. -/
def authAPIlogoutTrace : List LogoutEvent :=
  [LogoutEvent.backendLogoutRequested, LogoutEvent.tokensCleared]

/-- `logout`, primary copy (`auth-context.tsx` lines 137-159): awaits
`authAPI.logout()` first; only when that call succeeds does it clear the
user, invoke the registered chat-clear callback and route home — there is
no catch, so on backend failure the error propagates after tokens were
cleared by `authAPI.logout`'s `finally`.  Returns the trace and whether
the promise fulfilled. -/
def logoutPrimary (hasCallback : Bool) (backendOk : Bool) :
    List LogoutEvent × Bool :=
  if backendOk then
    (authAPIlogoutTrace ++ [LogoutEvent.userCleared]
      ++ (if hasCallback then [LogoutEvent.chatCleared] else [])
      ++ [LogoutEvent.routedHome], true)
  else
    (authAPIlogoutTrace, false)

/-- `logout`, duplicate copy (`auth-context.tsx` lines 413-438): invokes
the registered chat-clear callback first, then awaits `authAPI.logout()`
inside a `try` whose `catch` ignores errors, and in a `finally` always
clears the user and removes both tokens again.  The promise always
fulfils. -/
def logoutDup (hasCallback : Bool) (backendOk : Bool) :
    List LogoutEvent × Bool :=
  ((if hasCallback then [LogoutEvent.chatCleared] else [])
    ++ authAPIlogoutTrace
    ++ [LogoutEvent.userCleared, LogoutEvent.tokensCleared], true)

/-! ### Concrete sample values for witnesses and counterexamples -/

/-- A minimal successful backend chat response. -/
def sampleResponse : ChatResponse := { response := "hello", session_id := "sid1" }

/-- A second successful backend chat response with a different session id. -/
def sampleResponse2 : ChatResponse := { response := "again", session_id := "sid2" }

/-- A provider state whose check-in flow is mid-request. -/
def loadingState : ChatState := { ChatState.init with checkInLoading := true }

/-- A concrete questionnaire option. -/
def sampleOption : SurveyQuestionnaireOption :=
  { id := "phq9", name := "PHQ-9", icon := "📋" }

/-- A survey state carrying a non-empty questionnaire options list. -/
def optionsState : ChatState :=
  { ChatState.init with
    surveyMode := true
    surveyQuestionnaireOptions := [sampleOption]
    currentSurveyQuestion := some "q1"
    currentQuestionIndex := some 1
    totalQuestions := some 9
    possibleAnswers := [{ score := 0, text := "Not at all" }]
    currentQuestionnaireId := some "phq9"
    surveyResults := none }

/-! ### Theorems -/

/-- Strings made only of (JS) whitespace trim to the empty string. -/
theorem jsTrim_eq_empty {m : String} (h : ∀ c ∈ m.data, isJsWhitespace c) :
    jsTrim m = "" := by
  have h1 : m.data.dropWhile isJsWhitespace = [] :=
    List.dropWhile_eq_nil_iff.mpr fun c hc => h c hc
  simp [jsTrim, h1]

/-- C4: starting a new CBT session clears the transcript, the session id and
the next-step suggestions before anything is appended — on failure the flow
is left cleared — and on success the transcript is exactly the single
welcome message and the session id is the backend's. -/
theorem c4_startNewCBT_clears_then_welcomes :
    (∀ u r now s, (startNewCBT (some u) (Except.ok r) now s).1.cbtMessages =
        [welcomeMsg r.response now] ∧
      (startNewCBT (some u) (Except.ok r) now s).1.cbtSessionId = some r.session_id) ∧
    (∀ u e now s, (startNewCBT (some u) (Except.error e) now s).1.cbtMessages = [] ∧
      (startNewCBT (some u) (Except.error e) now s).1.cbtSessionId = none ∧
      (startNewCBT (some u) (Except.error e) now s).1.cbtNextSteps = []) := by
  constructor
  · intro u r now s
    simp [startNewCBT]
  · intro u e now s
    simp [startNewCBT]

/-- C5 counterexample: `closeSurvey` does not reset the questionnaire
options list — from a state holding one option, the option survives. -/
theorem c5_counterexample_options_survive_closeSurvey :
    (closeSurvey optionsState).surveyQuestionnaireOptions = [sampleOption] ∧
    (closeSurvey optionsState).surveyQuestionnaireOptions ≠ [] := by
  constructor
  · rfl
  · decide

/-- C5 (amended): `closeSurvey` resets the survey-mode flag, current
question text, question index, total question count, possible answers,
selected questionnaire id and final result to their initial values, and
leaves every other field — in particular the questionnaire options list —
untouched. -/
theorem c5_closeSurvey_resets_all_but_options :
    ∀ s : ChatState,
      (closeSurvey s).surveyMode = false ∧
      (closeSurvey s).currentSurveyQuestion = none ∧
      (closeSurvey s).currentQuestionIndex = none ∧
      (closeSurvey s).totalQuestions = none ∧
      (closeSurvey s).possibleAnswers = [] ∧
      (closeSurvey s).currentQuestionnaireId = none ∧
      (closeSurvey s).surveyResults = none ∧
      (closeSurvey s).surveyQuestionnaireOptions = s.surveyQuestionnaireOptions ∧
      (closeSurvey s).checkInSessionId = s.checkInSessionId ∧
      (closeSurvey s).checkInMessages = s.checkInMessages ∧
      (closeSurvey s).checkInNextSteps = s.checkInNextSteps ∧
      (closeSurvey s).checkInLoading = s.checkInLoading ∧
      (closeSurvey s).cbtSessionId = s.cbtSessionId ∧
      (closeSurvey s).cbtMessages = s.cbtMessages ∧
      (closeSurvey s).cbtNextSteps = s.cbtNextSteps ∧
      (closeSurvey s).cbtLoading = s.cbtLoading := by
  intro s
  simp [closeSurvey]

/-- C7: a check-in message made only of whitespace (the empty string
included) is rejected by the guard: no user message is appended, no
backend request is issued and the whole check-in state is unchanged. -/
theorem c7_whitespace_message_noop :
    ∀ (user : Option Nat) (m : String) (b : Except ApiError ChatResponse)
      (now : Nat) (s : ChatState),
      (∀ c ∈ m.data, isJsWhitespace c) →
      sendCheckInMessage user m b now s = (s, []) := by
  intro user m b now s h
  have ht : jsTrim m = "" := jsTrim_eq_empty h
  simp [sendCheckInMessage, ht]

/-- C7 witness: the one-space message is whitespace-only and is a no-op
from the initial state. -/
theorem c7_whitespace_message_noop_witness :
    (∀ c ∈ " ".data, isJsWhitespace c) ∧
    sendCheckInMessage (some 1) " " (Except.ok sampleResponse) 5 ChatState.init =
      (ChatState.init, []) := by
  refine ⟨by decide, ?_⟩
  exact c7_whitespace_message_noop (some 1) " " (Except.ok sampleResponse) 5
    ChatState.init (by decide)

/-- C9: `sendCheckInMessage` never stores the backend's `session_id` — the
check-in session id after any send (guard-rejected, failed or successful)
is exactly what it was before; in particular a first send from a null
session id leaves it null. -/
theorem c9_sendCheckInMessage_preserves_sessionId :
    ∀ (user : Option Nat) (m : String) (b : Except ApiError ChatResponse)
      (now : Nat) (s : ChatState),
      (sendCheckInMessage user m b now s).1.checkInSessionId = s.checkInSessionId := by
  intro user m b now s
  unfold sendCheckInMessage
  split
  · rfl
  · cases b <;> simp

/-- C8: when the backend rejects the stored check-in session id, the resume
falls back to `startNewCheckIn`; provided the fresh start succeeds, the
transcript is exactly one fresh welcome bot message and the session id is
the newly returned one. -/
theorem c8_resume_falls_back_to_new :
    ∀ (u : Nat) (sid : String) (e : ApiError) (r2 : ChatResponse) (now : Nat)
      (s : ChatState),
      s.checkInSessionId = some sid →
      (resumeCheckIn (some u) (Except.error e) (Except.ok r2) now s).1.checkInMessages =
        [welcomeMsg r2.response now] ∧
      (resumeCheckIn (some u) (Except.error e) (Except.ok r2) now s).1.checkInSessionId =
        some r2.session_id ∧
      (resumeCheckIn (some u) (Except.error e) (Except.ok r2) now s).2 =
        [ChatAPI.sendCheckInMessage none (some sid),
         ChatAPI.sendCheckInMessage none none] := by
  intro u sid e r2 now s h
  simp [resumeCheckIn, h, startNewCheckIn]

/-- C8 witness: from a state that stored session id `"stale"`, a rejected
resume followed by a successful fresh start yields the single fresh
welcome message and the new session id. -/
theorem c8_resume_falls_back_to_new_witness :
    ({ ChatState.init with checkInSessionId := some "stale" } : ChatState).checkInSessionId =
        some "stale" ∧
    (resumeCheckIn (some 1) (Except.error (some 404)) (Except.ok sampleResponse) 5
        { ChatState.init with checkInSessionId := some "stale" }).1.checkInMessages =
      [welcomeMsg "hello" 5] := by
  refine ⟨rfl, ?_⟩
  have h := c8_resume_falls_back_to_new 1 "stale" (some 404) sampleResponse 5
    { ChatState.init with checkInSessionId := some "stale" } rfl
  exact h.1

/-- C10: sending a first CBT message (non-empty, session id still null,
every backend call succeeding) loses the user's message: the embedded
`startNewCBT` resets the transcript to the welcome message, the follow-up
send still posts the closure-captured null session id, and the final
transcript is the welcome message plus the second bot reply — no user
message survives. -/
theorem c10_first_cbt_send_drops_user_message :
    ∀ (u : Nat) (m : String) (r1 r2 : ChatResponse)
      (bRetry : Except ApiError ChatResponse) (now : Nat) (s : ChatState),
      s.cbtSessionId = none →
      s.cbtLoading = false →
      jsTrim m ≠ "" →
      (sendCBTMessage (some u) m (Except.ok r1) (Except.ok r2) bRetry now s).1.cbtMessages =
        [welcomeMsg r1.response now, botMsg r2.response now] ∧
      (sendCBTMessage (some u) m (Except.ok r1) (Except.ok r2) bRetry now s).2 =
        [ChatAPI.sendCBTMessage none none, ChatAPI.sendCBTMessage (some m) none] ∧
      (∀ x ∈ (sendCBTMessage (some u) m (Except.ok r1) (Except.ok r2) bRetry now
          s).1.cbtMessages, x.sender = Sender.bot) := by
  intro u m r1 r2 bRetry now s hsid hload htrim
  have htrim' : (jsTrim m == "") = false := by
    simp [htrim]
  refine ⟨?_, ?_, ?_⟩ <;>
    simp [sendCBTMessage, htrim', hload, hsid, startNewCBT, welcomeMsg, botMsg]

/-- C10 witness: the concrete first send of `"hi"` from the initial state
with all calls succeeding. -/
theorem c10_first_cbt_send_drops_user_message_witness :
    ChatState.init.cbtSessionId = none ∧
    ChatState.init.cbtLoading = false ∧
    jsTrim "hi" ≠ "" ∧
    (sendCBTMessage (some 1) "hi" (Except.ok sampleResponse) (Except.ok sampleResponse2)
        (Except.ok sampleResponse) 5 ChatState.init).1.cbtMessages =
      [welcomeMsg "hello" 5, botMsg "again" 5] := by
  refine ⟨rfl, rfl, by decide, ?_⟩
  have h := c10_first_cbt_send_drops_user_message 1 "hi" sampleResponse sampleResponse2
    (Except.ok sampleResponse) 5 ChatState.init rfl rfl (by decide)
  exact h.1

/-- C1 counterexample: `startSurvey` is not gated by the loading flag — from
a state whose check-in flow is mid-request (`checkInLoading = true`) it
still issues a backend request and changes flow state (survey mode turns
on), so the claim that every chat or survey action is ignored while its
flow is loading is false. -/
theorem c1_counterexample_startSurvey_ignores_loading :
    loadingState.checkInLoading = true ∧
    (startSurvey (some 1) (Except.ok sampleResponse) loadingState).2 =
      [ChatAPI.startSurvey none] ∧
    (startSurvey (some 1) (Except.ok sampleResponse) loadingState).2 ≠ [] ∧
    (startSurvey (some 1) (Except.ok sampleResponse) loadingState).1.surveyMode = true ∧
    (startSurvey (some 1) (Except.ok sampleResponse) loadingState).1 ≠ loadingState := by
  refine ⟨rfl, by decide, by decide, by decide, by decide⟩

/-- C1 (amended): only the send-message and next-step-selection actions of
either flow are gated by that flow's loading flag (while it is set they
issue no request and change no state); the start-new, resume and survey
actions consult only their own preconditions (user present, stored session
id, survey mode, selected questionnaire and question index) and, when those
hold, issue their backend request regardless of the loading flag. -/
theorem c1_only_send_and_next_step_gated :
    (∀ (u : Option Nat) (m : String) (b : Except ApiError ChatResponse) (now : Nat)
        (s : ChatState), s.checkInLoading = true →
        sendCheckInMessage u m b now s = (s, [])) ∧
    (∀ (u : Option Nat) (step : NextStep) (b : Except ApiError ChatResponse) (now : Nat)
        (s : ChatState), s.checkInLoading = true →
        handleCheckInNextStep u step b now s = (s, [])) ∧
    (∀ (u : Option Nat) (m : String) (bNew bSend bRetry : Except ApiError ChatResponse)
        (now : Nat) (s : ChatState), s.cbtLoading = true →
        sendCBTMessage u m bNew bSend bRetry now s = (s, [])) ∧
    (∀ (u : Option Nat) (step : NextStep) (b : Except ApiError ChatResponse) (now : Nat)
        (s : ChatState), s.cbtLoading = true →
        handleCBTNextStep u step b now s = (s, [])) ∧
    (∀ (u : Nat) (b : Except ApiError ChatResponse) (now : Nat) (s : ChatState),
        (startNewCheckIn (some u) b now s).2 ≠ []) ∧
    (∀ (u : Nat) (b : Except ApiError ChatResponse) (now : Nat) (s : ChatState),
        (startNewCBT (some u) b now s).2 ≠ []) ∧
    (∀ (u : Nat) (sid : String) (rB sB : Except ApiError ChatResponse) (now : Nat)
        (s : ChatState), s.checkInSessionId = some sid →
        (resumeCheckIn (some u) rB sB now s).2 ≠ []) ∧
    (∀ (u : Nat) (sid : String) (rB sB : Except ApiError ChatResponse) (now : Nat)
        (s : ChatState), s.cbtSessionId = some sid →
        (resumeCBT (some u) rB sB now s).2 ≠ []) ∧
    (∀ (u : Nat) (b : Except ApiError ChatResponse) (s : ChatState),
        (startSurvey (some u) b s).2 ≠ []) ∧
    (∀ (u : Nat) (qid : String) (b : Except ApiError ChatResponse) (s : ChatState),
        s.surveyMode = true → (selectQuestionnaire (some u) qid b s).2 ≠ []) ∧
    (∀ (u : Nat) (score : Int) (qid : String) (idx : Int)
        (b : Except ApiError ChatResponse) (s : ChatState),
        s.surveyMode = true → s.currentQuestionnaireId = some qid →
        s.currentQuestionIndex = some idx →
        (answerSurveyQuestion (some u) score b s).2 ≠ []) := by
  refine ⟨?_, ?_, ?_, ?_, ?_, ?_, ?_, ?_, ?_, ?_, ?_⟩
  · intro u m b now s h
    simp [sendCheckInMessage, h]
  · intro u step b now s h
    simp [handleCheckInNextStep, h]
  · intro u m bNew bSend bRetry now s h
    simp [sendCBTMessage, h]
  · intro u step b now s h
    simp [handleCBTNextStep, h]
  · intro u b now s
    cases b <;> simp [startNewCheckIn]
  · intro u b now s
    cases b <;> simp [startNewCBT]
  · intro u sid rB sB now s h
    cases rB <;> simp [resumeCheckIn, h]
  · intro u sid rB sB now s h
    cases rB <;> simp [resumeCBT, h]
  · intro u b s
    cases b <;> simp [startSurvey]
  · intro u qid b s h
    cases b <;> simp [selectQuestionnaire, h]
  · intro u score qid idx b s h1 h2 h3
    cases b <;> simp [answerSurveyQuestion, h1, h2, h3]

/-- C1 witness: concrete instances of the gated and ungated parts — a
send-message call while loading is a no-op, a next-step call while loading
is a no-op, and `startSurvey`, `selectQuestionnaire` and
`answerSurveyQuestion` each issue a request from a state satisfying their
preconditions. -/
theorem c1_only_send_and_next_step_gated_witness :
    loadingState.checkInLoading = true ∧
    sendCheckInMessage (some 1) "hi" (Except.ok sampleResponse) 5 loadingState =
      (loadingState, []) ∧
    handleCheckInNextStep (some 1) { id := "step-0", label := "l", action := "a" }
        (Except.ok sampleResponse) 5 loadingState = (loadingState, []) ∧
    optionsState.surveyMode = true ∧
    (selectQuestionnaire (some 1) "phq9" (Except.ok sampleResponse) optionsState).2 ≠ [] ∧
    (answerSurveyQuestion (some 1) 2 (Except.ok sampleResponse) optionsState).2 ≠ [] ∧
    ({ ChatState.init with checkInSessionId := some "sid0" } : ChatState).checkInSessionId =
        some "sid0" ∧
    (resumeCheckIn (some 1) (Except.ok sampleResponse) (Except.ok sampleResponse) 5
        { ChatState.init with checkInSessionId := some "sid0" }).2 ≠ [] := by
  have h := c1_only_send_and_next_step_gated
  refine ⟨rfl, ?_, ?_, rfl, ?_, ?_, rfl, ?_⟩
  · exact h.1 (some 1) "hi" (Except.ok sampleResponse) 5 loadingState rfl
  · exact h.2.1 (some 1) { id := "step-0", label := "l", action := "a" }
      (Except.ok sampleResponse) 5 loadingState rfl
  · exact h.2.2.2.2.2.2.2.2.2.1 1 "phq9" (Except.ok sampleResponse) optionsState rfl
  · exact h.2.2.2.2.2.2.2.2.2.2 1 2 "phq9" 1 (Except.ok sampleResponse) optionsState
      rfl rfl rfl
  · exact h.2.2.2.2.2.2.1 1 "sid0" (Except.ok sampleResponse) (Except.ok sampleResponse)
      5 { ChatState.init with checkInSessionId := some "sid0" } rfl

/-- C2: every authenticated request performs at most one refresh and at
most one replay; when a 401 arrives with a refresh token stored and the
exchange succeeds, exactly one refresh and one replay happen, and a second
401 on the replayed request is rejected without any further refresh or
retry — the interceptor never loops. -/
theorem c2_exactly_one_refresh_and_retry :
    (∀ (store : TokenStore) (first : HttpOutcome)
        (rr : Except Unit (String × String)) (second : HttpOutcome),
        (runAuthedRequest store first rr second).refreshCalls ≤ 1 ∧
        (runAuthedRequest store first rr second).originalSends ≤ 2) ∧
    (∀ (store : TokenStore) (rt : String) (pair : String × String)
        (second : HttpOutcome), store.refresh_token = some rt →
        (runAuthedRequest store (HttpOutcome.err (some 401)) (Except.ok pair)
            second).refreshCalls = 1 ∧
        (runAuthedRequest store (HttpOutcome.err (some 401)) (Except.ok pair)
            second).originalSends = 2) ∧
    (∀ (store : TokenStore) (rt : String) (pair : String × String),
        store.refresh_token = some rt →
        (runAuthedRequest store (HttpOutcome.err (some 401)) (Except.ok pair)
            (HttpOutcome.err (some 401))).delivered = false) := by
  refine ⟨?_, ?_, ?_⟩
  · intro store first rr second
    cases first with
    | ok => simp [runAuthedRequest, interceptStep]
    | err st =>
      by_cases hst : st = some 401
      · subst hst
        cases hrt : store.refresh_token with
        | none => simp [runAuthedRequest, interceptStep, hrt]
        | some rt =>
          cases rr with
          | error u => simp [runAuthedRequest, interceptStep, hrt]
          | ok pair =>
            cases second with
            | ok => simp [runAuthedRequest, interceptStep, hrt]
            | err st2 => simp [runAuthedRequest, interceptStep, hrt]
      · simp [runAuthedRequest, interceptStep, hst]
  · intro store rt pair second hrt
    cases second with
    | ok => simp [runAuthedRequest, interceptStep, hrt]
    | err st2 => simp [runAuthedRequest, interceptStep, hrt]
  · intro store rt pair hrt
    simp [runAuthedRequest, interceptStep, hrt]

/-- C2 witness: a stored refresh token, a 401, a successful exchange and a
second 401 on the replay give exactly one refresh, two sends of the
original request, and a rejection. -/
theorem c2_exactly_one_refresh_and_retry_witness :
    (⟨some "a", some "r"⟩ : TokenStore).refresh_token = some "r" ∧
    (runAuthedRequest ⟨some "a", some "r"⟩ (HttpOutcome.err (some 401))
        (Except.ok ("a2", "r2")) (HttpOutcome.err (some 401))).refreshCalls = 1 ∧
    (runAuthedRequest ⟨some "a", some "r"⟩ (HttpOutcome.err (some 401))
        (Except.ok ("a2", "r2")) (HttpOutcome.err (some 401))).originalSends = 2 ∧
    (runAuthedRequest ⟨some "a", some "r"⟩ (HttpOutcome.err (some 401))
        (Except.ok ("a2", "r2")) (HttpOutcome.err (some 401))).delivered = false := by
  have h := c2_exactly_one_refresh_and_retry
  have h2 := h.2.1 ⟨some "a", some "r"⟩ "r" ("a2", "r2")
    (HttpOutcome.err (some 401)) rfl
  exact ⟨rfl, h2.1, h2.2, h.2.2 ⟨some "a", some "r"⟩ "r" ("a2", "r2") rfl⟩

/-- C3 counterexample: on a 401 with no stored refresh token the client
redirects but does not clear the stored access token, and the original
error is rejected to the caller — so the claim that this path clears both
tokens and surfaces no error state is false. -/
theorem c3_counterexample_tokens_survive_missing_refresh :
    (⟨some "a", none⟩ : TokenStore).refresh_token = none ∧
    (runAuthedRequest ⟨some "a", none⟩ (HttpOutcome.err (some 401))
        (Except.error ()) HttpOutcome.ok).store.access_token = some "a" ∧
    (runAuthedRequest ⟨some "a", none⟩ (HttpOutcome.err (some 401))
        (Except.error ()) HttpOutcome.ok).redirected = true ∧
    (runAuthedRequest ⟨some "a", none⟩ (HttpOutcome.err (some 401))
        (Except.error ()) HttpOutcome.ok).delivered = false := by
  decide

/-- C3 (amended): on a 401 with no stored refresh token the client
redirects to the login page with the token store untouched; on a 401 whose
refresh exchange fails it clears both tokens and redirects; in both failure
branches the promise is rejected, so the caller does observe the error. -/
theorem c3_redirect_branches :
    (∀ (store : TokenStore) (rr : Except Unit (String × String))
        (second : HttpOutcome), store.refresh_token = none →
        runAuthedRequest store (HttpOutcome.err (some 401)) rr second =
          ⟨store, true, false, 0, 1⟩) ∧
    (∀ (store : TokenStore) (rt : String) (second : HttpOutcome),
        store.refresh_token = some rt →
        runAuthedRequest store (HttpOutcome.err (some 401)) (Except.error ()) second =
          ⟨⟨none, none⟩, true, false, 1, 1⟩) := by
  constructor
  · intro store rr second hrt
    simp [runAuthedRequest, interceptStep, hrt]
  · intro store rt second hrt
    simp [runAuthedRequest, interceptStep, hrt]

/-- C3 witness: both redirect branches at concrete stores. -/
theorem c3_redirect_branches_witness :
    (⟨some "a", none⟩ : TokenStore).refresh_token = none ∧
    runAuthedRequest ⟨some "a", none⟩ (HttpOutcome.err (some 401))
        (Except.error ()) HttpOutcome.ok = ⟨⟨some "a", none⟩, true, false, 0, 1⟩ ∧
    runAuthedRequest ⟨some "a", some "r"⟩ (HttpOutcome.err (some 401))
        (Except.error ()) HttpOutcome.ok = ⟨⟨none, none⟩, true, false, 1, 1⟩ := by
  have h := c3_redirect_branches
  exact ⟨rfl, h.1 ⟨some "a", none⟩ (Except.error ()) HttpOutcome.ok rfl,
    h.2 ⟨some "a", some "r"⟩ "r" HttpOutcome.ok rfl⟩

/-- C6 counterexample: in the primary copy of `logout` the backend logout
request precedes the chat-clear callback even on success, and on a backend
failure neither the callback nor the user-state clearing happens — so the
claim that the callback runs before the backend call and that user state
is always cleared is false. -/
theorem c6_counterexample_primary_logout_order :
    (logoutPrimary true true).1 =
      [LogoutEvent.backendLogoutRequested, LogoutEvent.tokensCleared,
       LogoutEvent.userCleared, LogoutEvent.chatCleared, LogoutEvent.routedHome] ∧
    LogoutEvent.userCleared ∉ (logoutPrimary true false).1 ∧
    LogoutEvent.chatCleared ∉ (logoutPrimary true false).1 := by
  decide

/-- C6 (amended): the duplicate copy's `logout` invokes the registered
chat-clear callback before the backend logout call and always clears the
local user state and both stored tokens whether the backend call succeeds
or fails; the primary copy calls the backend first and only the stored
tokens are always cleared — its user state is cleared and its callback
invoked only when the backend call succeeds. -/
theorem c6_logout_contract :
    (∀ b, (logoutDup true b).1 =
        [LogoutEvent.chatCleared, LogoutEvent.backendLogoutRequested,
         LogoutEvent.tokensCleared, LogoutEvent.userCleared,
         LogoutEvent.tokensCleared]) ∧
    (∀ c b, LogoutEvent.userCleared ∈ (logoutDup c b).1 ∧
        LogoutEvent.tokensCleared ∈ (logoutDup c b).1 ∧ (logoutDup c b).2 = true) ∧
    (∀ c b, LogoutEvent.tokensCleared ∈ (logoutPrimary c b).1 ∧
        (logoutPrimary c b).1.head? = some LogoutEvent.backendLogoutRequested) ∧
    (∀ c, LogoutEvent.userCleared ∈ (logoutPrimary c true).1) ∧
    LogoutEvent.chatCleared ∈ (logoutPrimary true true).1 := by
  decide

end CbtFrontend
